import Mathlib

/-!
Shallow embedding of the BigQuery dataset-discovery and multi-dataset
table-aggregation layer of the dataIntel repository.

Embedded source files:
* `bigqueryDatasetService.ts` (`BigQueryDatasetService`: `discoverDatasets`,
  `validateDatasetAccess`, `validateMultipleDatasetAccess`);
* `metadataService.ts` (`DataSourceMetadataService`: `listTables`,
  `listTablesFromDatasets`, `validateDatasetAccess`).

External effects (the BigQuery client, the ibis adaptor, the wren engine,
the encryptor) are modelled as explicit environment records whose calls
return `Except JsError _`: an `Except.error` models a rejected promise /
thrown error.  `JSON.parse` is modelled by an executable parser `jsonParse`
returning `Option Json` (`none` models a thrown `SyntaxError`), and
Node's lenient `Buffer.from(s, 'base64').toString()` by `b64decodeLenient`
(characters outside the base64 alphabet are skipped, decoding stops at the
first padding character, and each decoded byte is kept as one character).
-/

set_option maxRecDepth 4000

/-- JSON values as produced by `JSON.parse`.  Number tokens keep their
lexeme; object fields are kept in parse order. -/
inductive Json where
  | null : Json
  | bool (b : Bool) : Json
  | num (lexeme : String) : Json
  | str (s : String) : Json
  | arr (items : List Json) : Json
  | obj (fields : List (String × Json)) : Json

/-! ## Node lenient base64 (`Buffer.from(s, 'base64')`) -/

/-- Value of one base64-alphabet character (standard and URL-safe alphabets,
as accepted by Node), `none` for any other character. -/
def b64val (c : Char) : Option Nat :=
  if 'A' ≤ c ∧ c ≤ 'Z' then some (c.toNat - 65)
  else if 'a' ≤ c ∧ c ≤ 'z' then some (c.toNat - 97 + 26)
  else if '0' ≤ c ∧ c ≤ '9' then some (c.toNat - 48 + 52)
  else if c = '+' ∨ c = '-' then some 62
  else if c = '/' ∨ c = '_' then some 63
  else none

/-- Collect the 6-bit values of a base64 string the way Node does: skip
characters outside the alphabet, stop at the first padding `=`. -/
def b64TakeVals : List Char → List Nat
  | [] => []
  | c :: cs =>
    if c = '=' then []
    else
      match b64val c with
      | some v => v :: b64TakeVals cs
      | none => b64TakeVals cs

/-- Repack 6-bit groups into bytes; a trailing group of fewer than 8 bits is
dropped (Node keeps `floor(6 * n / 8)` bytes). -/
def b64Bytes : List Nat → List Nat
  | v1 :: v2 :: v3 :: v4 :: rest =>
    (v1 * 4 + v2 / 16) :: ((v2 % 16) * 16 + v3 / 4) :: ((v3 % 4) * 64 + v4) :: b64Bytes rest
  | [v1, v2, v3] => [v1 * 4 + v2 / 16, (v2 % 16) * 16 + v3 / 4]
  | [v1, v2] => [v1 * 4 + v2 / 16]
  | _ => []

/-- Each decoded byte is kept as one character of the decoded text. -/
def bytesToChars (bs : List Nat) : List Char :=
  bs.map Char.ofNat

/-- `Buffer.from(s, 'base64').toString()`. -/
def b64decodeLenient (s : List Char) : List Char :=
  bytesToChars (b64Bytes (b64TakeVals s))

/-- Standard base64 alphabet character of a 6-bit value. -/
def b64EncChar (v : Nat) : Char :=
  if v < 26 then Char.ofNat (65 + v)
  else if v < 52 then Char.ofNat (97 + (v - 26))
  else if v < 62 then Char.ofNat (48 + (v - 52))
  else if v = 62 then '+'
  else '/'

/-- Standard base64 encoding of a byte sequence, with padding. -/
def b64EncodeBytes : List Nat → List Char
  | b1 :: b2 :: b3 :: rest =>
    b64EncChar (b1 / 4) :: b64EncChar ((b1 % 4) * 16 + b2 / 16) ::
      b64EncChar ((b2 % 16) * 4 + b3 / 64) :: b64EncChar (b3 % 64) :: b64EncodeBytes rest
  | [b1, b2] =>
    [b64EncChar (b1 / 4), b64EncChar ((b1 % 4) * 16 + b2 / 16), b64EncChar ((b2 % 16) * 4), '=']
  | [b1] => [b64EncChar (b1 / 4), b64EncChar ((b1 % 4) * 16), '=', '=']
  | [] => []

/-- Base64 encoding of an ASCII string (for ASCII text the UTF-8 bytes are
exactly the character codes). -/
def b64EncodeString (s : String) : String :=
  String.mk (b64EncodeBytes (s.toList.map Char.toNat))

/-! ## `JSON.parse` -/

/-- JSON whitespace. -/
def isJsonWs (c : Char) : Bool :=
  c = ' ' || c = '\t' || c = '\n' || c = '\r'

def skipWs (s : List Char) : List Char :=
  s.dropWhile isJsonWs

/-- Hex digit value. -/
def hexVal (c : Char) : Option Nat :=
  if '0' ≤ c ∧ c ≤ '9' then some (c.toNat - 48)
  else if 'a' ≤ c ∧ c ≤ 'f' then some (c.toNat - 97 + 10)
  else if 'A' ≤ c ∧ c ≤ 'F' then some (c.toNat - 65 + 10)
  else none

/-- Single-character escapes of JSON strings. -/
def escChar (c : Char) : Option Char :=
  if c = '"' then some '"'
  else if c = '\\' then some '\\'
  else if c = '/' then some '/'
  else if c = 'b' then some (Char.ofNat 8)
  else if c = 'f' then some (Char.ofNat 12)
  else if c = 'n' then some '\n'
  else if c = 'r' then some (Char.ofNat 13)
  else if c = 't' then some '\t'
  else none

/-- Body of a JSON string after the opening quote: returns the decoded
characters and the input after the closing quote. -/
def parseStringBody : List Char → Option (List Char × List Char)
  | [] => none
  | c :: rest =>
    if c = '"' then some ([], rest)
    else if c = '\\' then
      match rest with
      | [] => none
      | e :: rest2 =>
        if e = 'u' then
          match rest2 with
          | h1 :: h2 :: h3 :: h4 :: rest3 =>
            match hexVal h1, hexVal h2, hexVal h3, hexVal h4 with
            | some a, some b, some c2, some d =>
              match parseStringBody rest3 with
              | some (cs, r) => some (Char.ofNat (a * 4096 + b * 256 + c2 * 16 + d) :: cs, r)
              | none => none
            | _, _, _, _ => none
          | _ => none
        else
          match escChar e with
          | some ec =>
            match parseStringBody rest2 with
            | some (cs, r) => some (ec :: cs, r)
            | none => none
          | none => none
    else if c.toNat < 32 then none
    else
      match parseStringBody rest with
      | some (cs, r) => some (c :: cs, r)
      | none => none

/-- Exponent part of a JSON number (optional). -/
def parseNumExp (lex : List Char) (s : List Char) : Option (List Char × List Char) :=
  match s with
  | c :: r =>
    if c = 'e' ∨ c = 'E' then
      let sr : List Char × List Char :=
        match r with
        | '+' :: rr => (['+'], rr)
        | '-' :: rr => (['-'], rr)
        | _ => ([], r)
      let ds := sr.2.takeWhile Char.isDigit
      if ds.isEmpty then none
      else some (lex ++ c :: sr.1 ++ ds, sr.2.dropWhile Char.isDigit)
    else some (lex, s)
  | [] => some (lex, s)

/-- Fraction part of a JSON number (optional), then exponent. -/
def parseNumFrac (lex : List Char) (s : List Char) : Option (List Char × List Char) :=
  match s with
  | '.' :: r =>
    let ds := r.takeWhile Char.isDigit
    if ds.isEmpty then none
    else parseNumExp (lex ++ '.' :: ds) (r.dropWhile Char.isDigit)
  | _ => parseNumExp lex s

/-- JSON number token: returns the lexeme and the rest of the input. -/
def parseNumber (s : List Char) : Option (List Char × List Char) :=
  let ms : List Char × List Char :=
    match s with
    | '-' :: r => (['-'], r)
    | _ => ([], s)
  match ms.2 with
  | [] => none
  | c :: r =>
    if c = '0' then parseNumFrac (ms.1 ++ ['0']) r
    else if c.isDigit then
      parseNumFrac (ms.1 ++ c :: r.takeWhile Char.isDigit) (r.dropWhile Char.isDigit)
    else none

mutual

/-- One JSON value, fuel-bounded; returns the value and the rest of the
input (starting at the character after the value). -/
def parseValue : Nat → List Char → Option (Json × List Char)
  | 0, _ => none
  | Nat.succ fuel, s =>
    match skipWs s with
    | 'n' :: 'u' :: 'l' :: 'l' :: rest => some (Json.null, rest)
    | 't' :: 'r' :: 'u' :: 'e' :: rest => some (Json.bool true, rest)
    | 'f' :: 'a' :: 'l' :: 's' :: 'e' :: rest => some (Json.bool false, rest)
    | '"' :: rest =>
      match parseStringBody rest with
      | some (cs, r) => some (Json.str (String.mk cs), r)
      | none => none
    | '[' :: rest =>
      match skipWs rest with
      | ']' :: r => some (Json.arr [], r)
      | s2 =>
        match parseArrayItems fuel s2 with
        | some (items, r) => some (Json.arr items, r)
        | none => none
    | '{' :: rest =>
      match skipWs rest with
      | '}' :: r => some (Json.obj [], r)
      | s2 =>
        match parseObjectItems fuel s2 with
        | some (fs, r) => some (Json.obj fs, r)
        | none => none
    | s1 =>
      match parseNumber s1 with
      | some (lex, r) => some (Json.num (String.mk lex), r)
      | none => none

/-- Comma-separated values of a non-empty array, up to the closing `]`. -/
def parseArrayItems : Nat → List Char → Option (List Json × List Char)
  | 0, _ => none
  | Nat.succ fuel, s =>
    match parseValue fuel s with
    | none => none
    | some (v, r) =>
      match skipWs r with
      | ',' :: r2 =>
        match parseArrayItems fuel r2 with
        | some (items, r3) => some (v :: items, r3)
        | none => none
      | ']' :: r2 => some ([v], r2)
      | _ => none

/-- Comma-separated fields of a non-empty object, up to the closing brace. -/
def parseObjectItems : Nat → List Char → Option (List (String × Json) × List Char)
  | 0, _ => none
  | Nat.succ fuel, s =>
    match skipWs s with
    | '"' :: rest =>
      match parseStringBody rest with
      | none => none
      | some (key, r) =>
        match skipWs r with
        | ':' :: r2 =>
          match parseValue fuel r2 with
          | none => none
          | some (v, r3) =>
            match skipWs r3 with
            | ',' :: r4 =>
              match parseObjectItems fuel r4 with
              | some (fs, r5) => some ((String.mk key, v) :: fs, r5)
              | none => none
            | '}' :: r4 => some ([(String.mk key, v)], r4)
            | _ => none
        | _ => none
    | _ => none

end

/-- `JSON.parse`: `none` models a thrown `SyntaxError`.  The fuel bound
`2 * length + 2` exceeds the number of parser steps any input can take,
since every two nested calls consume at least one character. -/
def jsonParse (s : List Char) : Option Json :=
  match parseValue (2 * s.length + 2) s with
  | some (v, rest) => if (skipWs rest).isEmpty then some v else none
  | none => none

example : jsonParse "\x7b\x7d".toList = some (Json.obj []) := rfl
example : jsonParse " [1, \"a\"] ".toList
    = some (Json.arr [Json.num "1", Json.str "a"]) := rfl
example : jsonParse "not json".toList = none := rfl
example : jsonParse "\x7b\"a\":1\x7d".toList = some (Json.obj [("a", Json.num "1")]) := rfl
example : b64decodeLenient "e30=".toList = "\x7b\x7d".toList := rfl
example : b64EncodeString "\x7b\x7d" = "e30=" := rfl

/-! ## Thrown errors and the BigQuery environment -/

/-- The `code` property of a thrown error: BigQuery API errors carry a
numeric or string code; other errors have none. -/
inductive ErrCode where
  | num (n : Int) : ErrCode
  | str (s : String) : ErrCode
  | missing : ErrCode
deriving DecidableEq

/-- A thrown error / rejected promise. -/
structure JsError where
  code : ErrCode
  message : String
deriving DecidableEq

/-- Metadata of one BigQuery dataset, as returned by `dataset.getMetadata()`
(each field may be absent). -/
structure BqDatasetMetadata where
  friendlyName : Option String
  description : Option String
  location : Option String
  creationTime : Option String
  lastModifiedTime : Option String
deriving DecidableEq

/-- One dataset handle returned by `bigquery.getDatasets()`: its id and the
outcome of its own `getMetadata()` call. -/
structure BqDataset where
  id : String
  getMetadata : Except JsError BqDatasetMetadata

/-- The BigQuery client, as an environment: outcomes of the network calls
made by `BigQueryDatasetService`, indexed by the project id and parsed
credentials the client was constructed with. -/
structure BqEnv where
  getDatasets : String → Json → Except JsError (List BqDataset)
  datasetGetMetadata : String → Json → String → Except JsError BqDatasetMetadata

/-! ## `bigqueryDatasetService.ts` -/

/-- `DatasetInfo` of `bigqueryDatasetService.ts`. -/
structure DatasetInfo where
  id : String
  friendlyName : Option String
  description : Option String
  location : Option String
  creationTime : Option String
  lastModifiedTime : Option String
deriving DecidableEq

/-- The `error` payload of a failed discovery. -/
structure DiscoveryError where
  code : String
  message : String
  requiresManualInput : Bool
deriving DecidableEq

/-- `DatasetDiscoveryResult`: `success` plus the two optional payloads,
exactly as in the TypeScript interface. -/
structure DatasetDiscoveryResult where
  success : Bool
  datasets : Option (List DatasetInfo)
  error : Option DiscoveryError
deriving DecidableEq

/-- `{accessible, inaccessible}` as returned by
`validateMultipleDatasetAccess`. -/
structure AccessPartition where
  accessible : List String
  inaccessible : List String
deriving DecidableEq

namespace BigQueryDatasetService

/-- The credential-decoding step of `discoverDatasets`: base64-decode then
`JSON.parse`; on failure, `JSON.parse` of the raw string; `none` when both
fail. -/
def decodeCredentials (credentials : String) : Option Json :=
  match jsonParse (b64decodeLenient credentials.toList) with
  | some parsedCredentials => some parsedCredentials
  | none => jsonParse credentials.toList

/-- The `DatasetInfo` built for one enumerated dataset: full metadata when
`dataset.getMetadata()` succeeds, only the id when it throws. -/
def datasetInfoOf (dataset : BqDataset) : DatasetInfo :=
  match dataset.getMetadata with
  | Except.ok metadata =>
    ⟨dataset.id, metadata.friendlyName, metadata.description, metadata.location,
      metadata.creationTime, metadata.lastModifiedTime⟩
  | Except.error _ => ⟨dataset.id, none, none, none, none, none⟩

/-- `BigQueryDatasetService.discoverDatasets`. -/
def discoverDatasets (env : BqEnv) (projectId credentials : String) :
    DatasetDiscoveryResult :=
  match decodeCredentials credentials with
  | none =>
    ⟨false, none, some ⟨"INVALID_CREDENTIALS",
      "Invalid credentials format. Please check your service account key format.",
      false⟩⟩
  | some parsedCredentials =>
    match env.getDatasets projectId parsedCredentials with
    | Except.ok datasets => ⟨true, some (datasets.map datasetInfoOf), none⟩
    | Except.error e =>
      if e.code = ErrCode.num 403 ∨ e.code = ErrCode.str "PERMISSION_DENIED" then
        ⟨false, none, some ⟨"INSUFFICIENT_PERMISSIONS",
          "Service account lacks permission to list datasets. You can specify dataset IDs manually.",
          true⟩⟩
      else if e.code = ErrCode.num 401 ∨ e.code = ErrCode.str "UNAUTHENTICATED" then
        ⟨false, none, some ⟨"AUTHENTICATION_FAILED",
          "Invalid credentials. Please check your service account key.",
          false⟩⟩
      else if e.code = ErrCode.num 404 ∨ e.code = ErrCode.str "NOT_FOUND" then
        ⟨false, none, some ⟨"PROJECT_NOT_FOUND",
          "Project not found. Please verify the project ID.",
          false⟩⟩
      else
        ⟨false, none, some ⟨"DISCOVERY_FAILED",
          (if e.message = "" then
            "Failed to discover datasets. You can specify dataset IDs manually."
          else e.message),
          true⟩⟩

/-- `BigQueryDatasetService.validateDatasetAccess`: base64-decode and parse
the credentials (no plain-JSON fallback here), call
`bigquery.dataset(datasetId).getMetadata()`; any throw is caught and
reported as `false`. -/
def validateDatasetAccess (env : BqEnv) (projectId datasetId credentials : String) :
    Bool :=
  match jsonParse (b64decodeLenient credentials.toList) with
  | none => false
  | some parsedCredentials =>
    match env.datasetGetMetadata projectId parsedCredentials datasetId with
    | Except.ok _ => true
    | Except.error _ => false

/-- `BigQueryDatasetService.validateMultipleDatasetAccess`. -/
def validateMultipleDatasetAccess (env : BqEnv) (projectId : String)
    (datasetIds : List String) (credentials : String) : AccessPartition :=
  let results := datasetIds.map (fun datasetId =>
    (datasetId, validateDatasetAccess env projectId datasetId credentials))
  ⟨(results.filter (fun r => r.2)).map (fun r => r.1),
   (results.filter (fun r => !r.2)).map (fun r => r.1)⟩

end BigQueryDatasetService

/-! ## `metadataService.ts` -/

/-- `DataSourceName` of `types/dataSource.ts`. -/
inductive DataSourceName where
  | BIG_QUERY | DUCKDB | POSTGRES | MYSQL | ORACLE | MSSQL
  | CLICK_HOUSE | TRINO | SNOWFLAKE | ATHENA | REDSHIFT
deriving DecidableEq

/-- `BIG_QUERY_CONNECTION_INFO`: the fields of `connectionInfo` that the
embedded methods read or update (`credentials` is the encrypted blob). -/
structure BigQueryConnectionInfo where
  projectId : String
  datasetId : Option String
  credentials : String
deriving DecidableEq

/-- The fields of `Project` read by the embedded methods. -/
structure Project where
  type : DataSourceName
  connectionInfo : BigQueryConnectionInfo

structure CompactColumn where
  name : String
  type : String
  notNull : Bool
  description : Option String
deriving DecidableEq

/-- `CompactTable`; `properties` is a JS object modelled as an ordered
key-value list (an absent `properties` behaves as the empty object under
spread, so it is represented by `[]`). -/
structure CompactTable where
  name : String
  columns : List CompactColumn
  description : Option String
  properties : List (String × String)
  primaryKey : Option String
deriving DecidableEq

/-- JS object assignment `{...props, k: v}`: an existing key keeps its
position and gets the new value, a new key is appended. -/
def setProp (props : List (String × String)) (k v : String) :
    List (String × String) :=
  if props.any (fun p => p.1 = k) then
    props.map (fun p => if p.1 = k then (k, v) else p)
  else props ++ [(k, v)]

/-- JS property read `props[k]`. -/
def getProp (props : List (String × String)) (k : String) : Option String :=
  (props.find? (fun p => p.1 = k)).map (fun p => p.2)

/-- The per-table tagging `{...table, properties: {...table.properties,
dataset: datasetId}}` done by `listTablesFromDatasets`. -/
def tagTable (t : CompactTable) (datasetId : String) : CompactTable :=
  { t with properties := setProp t.properties "dataset" datasetId }

/-- Reading a named property of a parsed JSON value, as JS property access
on the result of `JSON.parse` (an object field, `undefined` otherwise;
duplicate keys keep the last value). -/
def jsonGetField (j : Json) (k : String) : Option Json :=
  match j with
  | Json.obj fields => (fields.reverse.find? (fun f => f.1 = k)).map (fun f => f.2)
  | _ => none

/-- The collaborators of `DataSourceMetadataService`, as an environment:
the ibis adaptor's `getTables`, the wren engine's `listTables` and the
encryptor's `decrypt`. -/
structure MetaEnv where
  ibisGetTables : DataSourceName → BigQueryConnectionInfo → Option (List String) →
    Except JsError (List CompactTable)
  wrenListTables : Except JsError (List CompactTable)
  decrypt : String → Except JsError String

namespace DataSourceMetadataService

/-- `DataSourceMetadataService.listTables` (the `datasetIds` argument is
optional in the source and omitted by `listTablesFromDatasets`). -/
def listTables (env : MetaEnv) (project : Project)
    (datasetIds : Option (List String)) : Except JsError (List CompactTable) :=
  if project.type = DataSourceName.DUCKDB then env.wrenListTables
  else env.ibisGetTables project.type project.connectionInfo datasetIds

/-- The lambda mapped over `datasetIds` by `listTablesFromDatasets`: derive
a per-dataset connection info, fetch that dataset's tables, tag each with
the dataset id; a throwing fetch is caught and contributes `[]`. -/
def perDatasetTables (env : MetaEnv) (project : Project) (datasetId : String) :
    List CompactTable :=
  match env.ibisGetTables project.type
      { project.connectionInfo with datasetId := some datasetId } none with
  | Except.ok tables => tables.map (fun t => tagTable t datasetId)
  | Except.error _ => []

/-- `DataSourceMetadataService.listTablesFromDatasets`: non-BigQuery sources
fall back to `listTables`; for BigQuery, the per-dataset lists are fetched
independently and flattened. -/
def listTablesFromDatasets (env : MetaEnv) (project : Project)
    (datasetIds : List String) : Except JsError (List CompactTable) :=
  if project.type ≠ DataSourceName.BIG_QUERY then listTables env project none
  else Except.ok ((datasetIds.map (perDatasetTables env project)).flatten)

/-- `DataSourceMetadataService.validateDatasetAccess`: non-BigQuery sources
get the identity partition; for BigQuery the encrypted credentials are
decrypted, parsed, their `credentials` field extracted and passed to
`BigQueryDatasetService.validateMultipleDatasetAccess`.  A `decrypt` or
`JSON.parse` throw propagates (the method has no try/catch); reading
`.credentials` of `null` throws; a non-string `credentials` field makes
`Buffer.from` throw inside every single-dataset validation, which that
method catches, so every id comes back inaccessible. -/
def validateDatasetAccess (env : MetaEnv) (bq : BqEnv) (project : Project)
    (datasetIds : List String) : Except JsError AccessPartition :=
  if project.type ≠ DataSourceName.BIG_QUERY then
    Except.ok ⟨datasetIds, []⟩
  else
    match env.decrypt project.connectionInfo.credentials with
    | Except.error e => Except.error e
    | Except.ok decryptedCredentials =>
      match jsonParse decryptedCredentials.toList with
      | none => Except.error ⟨ErrCode.missing, "Unexpected token in JSON"⟩
      | some parsed =>
        match parsed with
        | Json.null =>
          Except.error ⟨ErrCode.missing, "Cannot read properties of null"⟩
        | w =>
          match jsonGetField w "credentials" with
          | some (Json.str s) =>
            Except.ok (BigQueryDatasetService.validateMultipleDatasetAccess bq
              project.connectionInfo.projectId datasetIds s)
          | _ => Except.ok ⟨[], datasetIds⟩

end DataSourceMetadataService

/-! ## Concrete environments and data used to instantiate the theorems -/

/-- Dataset metadata with every optional field absent. -/
def emptyMetadata : BqDatasetMetadata := ⟨none, none, none, none, none⟩

/-- A project whose dataset enumeration succeeds with zero datasets and
where only dataset `b` refuses access. -/
def bqSampleEnv : BqEnv :=
  ⟨fun _ _ => Except.ok [],
   fun _ _ datasetId =>
     if datasetId = "b" then Except.error ⟨ErrCode.missing, "no access"⟩
     else Except.ok emptyMetadata⟩

/-- A BigQuery client whose every call throws the given error. -/
def bqErrEnv (c : ErrCode) : BqEnv :=
  ⟨fun _ _ => Except.error ⟨c, "msg"⟩, fun _ _ _ => Except.error ⟨c, "msg"⟩⟩

/-- A dataset whose metadata fetch succeeds. -/
def dsGood : BqDataset := ⟨"ds1", Except.ok ⟨some "fn", none, some "US", none, none⟩⟩

/-- A dataset whose metadata fetch throws. -/
def dsBad : BqDataset := ⟨"ds2", Except.error ⟨ErrCode.missing, "meta-fail"⟩⟩

/-- Enumeration succeeds with one good-metadata and one bad-metadata
dataset. -/
def bqMetaEnv : BqEnv := ⟨fun _ _ => Except.ok [dsGood, dsBad], fun _ _ _ => Except.ok emptyMetadata⟩

/-- A table with no properties of its own. -/
def tableT1 : CompactTable := ⟨"t1", [], none, [], none⟩

/-- Collaborators where fetching tables of dataset `d2` throws and every
other dataset holds exactly `tableT1`. -/
def metaBqEnv : MetaEnv :=
  ⟨fun _ ci _ =>
     if ci.datasetId = some "d2" then Except.error ⟨ErrCode.missing, "boom"⟩
     else Except.ok [tableT1],
   Except.ok [],
   fun s => Except.ok s⟩

/-- Collaborators where every per-dataset table fetch throws. -/
def metaBqFailEnv : MetaEnv :=
  ⟨fun _ _ _ => Except.error ⟨ErrCode.missing, "boom"⟩, Except.ok [], fun s => Except.ok s⟩

/-- A BigQuery project. -/
def bqProject : Project := ⟨DataSourceName.BIG_QUERY, ⟨"p1", none, "enc"⟩⟩

/-- A Postgres project. -/
def pgProject : Project := ⟨DataSourceName.POSTGRES, ⟨"p2", none, "enc"⟩⟩

/-! ## Helper lemmas: base64 round trip -/

lemma b64val_encChar (v : Nat) (hv : v < 64) : b64val (b64EncChar v) = some v := by
  revert hv
  revert v
  decide

lemma b64EncChar_ne_pad (v : Nat) (hv : v < 64) : b64EncChar v ≠ '=' := by
  revert hv
  revert v
  decide

lemma b64TakeVals_cons_enc (v : Nat) (hv : v < 64) (cs : List Char) :
    b64TakeVals (b64EncChar v :: cs) = v :: b64TakeVals cs := by
  conv_lhs => rw [b64TakeVals]
  rw [if_neg (b64EncChar_ne_pad v hv), b64val_encChar v hv]

lemma b64TakeVals_pad (cs : List Char) : b64TakeVals ('=' :: cs) = [] := by
  unfold b64TakeVals
  rw [if_pos rfl]

/-- Decoding a standard base64 encoding recovers the original bytes. -/
lemma b64Bytes_roundtrip : ∀ bs : List Nat, (∀ b ∈ bs, b < 256) →
    b64Bytes (b64TakeVals (b64EncodeBytes bs)) = bs
  | [], _ => rfl
  | [b1], h => by
    have hb1 : b1 < 256 := h b1 (by simp)
    rw [b64EncodeBytes]
    rw [b64TakeVals_cons_enc (b1 / 4) (by omega)]
    rw [b64TakeVals_cons_enc ((b1 % 4) * 16) (by omega)]
    rw [b64TakeVals_pad]
    show [b1 / 4 * 4 + (b1 % 4) * 16 / 16] = [b1]
    congr 1
    omega
  | [b1, b2], h => by
    have hb1 : b1 < 256 := h b1 (by simp)
    have hb2 : b2 < 256 := h b2 (by simp)
    rw [b64EncodeBytes]
    rw [b64TakeVals_cons_enc (b1 / 4) (by omega)]
    rw [b64TakeVals_cons_enc ((b1 % 4) * 16 + b2 / 16) (by omega)]
    rw [b64TakeVals_cons_enc ((b2 % 16) * 4) (by omega)]
    rw [b64TakeVals_pad]
    show [b1 / 4 * 4 + ((b1 % 4) * 16 + b2 / 16) / 16,
      ((b1 % 4) * 16 + b2 / 16) % 16 * 16 + (b2 % 16) * 4 / 4] = [b1, b2]
    congr 1
    · omega
    · congr 1
      omega
  | b1 :: b2 :: b3 :: rest, h => by
    have hb1 : b1 < 256 := h b1 (by simp)
    have hb2 : b2 < 256 := h b2 (by simp)
    have hb3 : b3 < 256 := h b3 (by simp)
    have ih := b64Bytes_roundtrip rest (fun b hb => h b (by simp [hb]))
    rw [b64EncodeBytes]
    rw [b64TakeVals_cons_enc (b1 / 4) (by omega)]
    rw [b64TakeVals_cons_enc ((b1 % 4) * 16 + b2 / 16) (by omega)]
    rw [b64TakeVals_cons_enc ((b2 % 16) * 4 + b3 / 64) (by omega)]
    rw [b64TakeVals_cons_enc (b3 % 64) (by omega)]
    rw [b64Bytes]
    rw [ih]
    congr 1
    · omega
    congr 1
    · omega
    congr 1
    omega

/-- Decoding the base64 encoding of a byte string recovers the characters. -/
lemma b64decodeLenient_encode (l : List Char) (h : ∀ c ∈ l, c.toNat < 256) :
    b64decodeLenient (b64EncodeBytes (l.map Char.toNat)) = l := by
  unfold b64decodeLenient
  rw [b64Bytes_roundtrip (l.map Char.toNat) (by simpa using h)]
  unfold bytesToChars
  rw [List.map_map]
  have : (Char.ofNat ∘ Char.toNat) = id := by
    funext c
    exact Char.ofNat_toNat c
  rw [this, List.map_id]

/-! ## Helper lemmas: partitioning -/

lemma pairMap_filter_pos {α : Type} (f : α → Bool) (l : List α) :
    ((l.map (fun a => (a, f a))).filter (fun r => r.2)).map (fun r => r.1)
      = l.filter f := by
  induction l with
  | nil => rfl
  | cons a l ih =>
    by_cases hfa : f a <;> simp [List.filter_cons, hfa, ih]

lemma pairMap_filter_neg {α : Type} (f : α → Bool) (l : List α) :
    ((l.map (fun a => (a, f a))).filter (fun r => !r.2)).map (fun r => r.1)
      = l.filter (fun a => !f a) := by
  induction l with
  | nil => rfl
  | cons a l ih =>
    by_cases hfa : f a <;> simp [List.filter_cons, hfa, ih]

lemma validateMultiple_accessible (env : BqEnv) (projectId : String)
    (datasetIds : List String) (credentials : String) :
    (BigQueryDatasetService.validateMultipleDatasetAccess env projectId datasetIds
      credentials).accessible
      = datasetIds.filter
          (fun d => BigQueryDatasetService.validateDatasetAccess env projectId d credentials) := by
  unfold BigQueryDatasetService.validateMultipleDatasetAccess
  exact pairMap_filter_pos _ datasetIds

lemma validateMultiple_inaccessible (env : BqEnv) (projectId : String)
    (datasetIds : List String) (credentials : String) :
    (BigQueryDatasetService.validateMultipleDatasetAccess env projectId datasetIds
      credentials).inaccessible
      = datasetIds.filter
          (fun d => !BigQueryDatasetService.validateDatasetAccess env projectId d credentials) := by
  unfold BigQueryDatasetService.validateMultipleDatasetAccess
  exact pairMap_filter_neg _ datasetIds

/-! ## Helper lemmas: the dataset tag -/

lemma find_map_replace (props : List (String × String)) (k v : String)
    (h : props.any (fun p => p.1 = k) = true) :
    (props.map (fun p => if p.1 = k then (k, v) else p)).find?
      (fun p => p.1 = k) = some (k, v) := by
  induction props with
  | nil => simp at h
  | cons p ps ih =>
    by_cases hp : p.1 = k
    · simp only [List.map_cons, if_pos hp]
      rw [List.find?_cons_of_pos]
      simp
    · simp only [List.map_cons, if_neg hp]
      rw [List.find?_cons_of_neg]
      · refine ih ?_
        simp only [List.any_cons, decide_eq_true_eq, hp] at h
        simpa using h
      · simp [hp]

lemma find_append_one (props : List (String × String)) (k v : String)
    (h : props.any (fun p => p.1 = k) = false) :
    (props ++ [(k, v)]).find? (fun p => p.1 = k) = some (k, v) := by
  induction props with
  | nil => simp
  | cons p ps ih =>
    simp only [List.any_cons, Bool.or_eq_false_iff, decide_eq_true_eq] at h
    rw [List.cons_append, List.find?_cons_of_neg]
    · exact ih (by simpa using h.2)
    · simp [h.1]

/-- After the tagging spread, the `dataset` property reads back as the
dataset id. -/
lemma getProp_setProp (props : List (String × String)) (k v : String) :
    getProp (setProp props k v) k = some v := by
  unfold setProp getProp
  by_cases h : props.any (fun p => p.1 = k)
  · rw [if_pos h, find_map_replace props k v h]
    rfl
  · have h' : props.any (fun p => p.1 = k) = false := by
      revert h
      cases props.any (fun p => p.1 = k) <;> simp
    rw [if_neg h, find_append_one props k v h']
    rfl

lemma getProp_tagTable (t : CompactTable) (datasetId : String) :
    getProp (tagTable t datasetId).properties "dataset" = some datasetId :=
  getProp_setProp t.properties "dataset" datasetId

/-! ## Claims about the access validator -/

/-- C3: for every project id, credentials and input list of dataset ids,
`validateMultipleDatasetAccess` returns a partition: the two sides are
disjoint, every input id lands in exactly one side, their union is the
input set, and each side preserves the relative input order (it is a
sublist of the input). -/
theorem validateMultipleDatasetAccess_partition (env : BqEnv)
    (projectId credentials : String) (datasetIds : List String) :
    (∀ d, d ∈ (BigQueryDatasetService.validateMultipleDatasetAccess env projectId
        datasetIds credentials).accessible →
      d ∉ (BigQueryDatasetService.validateMultipleDatasetAccess env projectId
        datasetIds credentials).inaccessible) ∧
    (∀ d, d ∈ datasetIds ↔
      d ∈ (BigQueryDatasetService.validateMultipleDatasetAccess env projectId
        datasetIds credentials).accessible ∨
      d ∈ (BigQueryDatasetService.validateMultipleDatasetAccess env projectId
        datasetIds credentials).inaccessible) ∧
    List.Sublist (BigQueryDatasetService.validateMultipleDatasetAccess env projectId
      datasetIds credentials).accessible datasetIds ∧
    List.Sublist (BigQueryDatasetService.validateMultipleDatasetAccess env projectId
      datasetIds credentials).inaccessible datasetIds := by
  rw [validateMultiple_accessible, validateMultiple_inaccessible]
  refine ⟨?_, ?_, List.filter_sublist datasetIds, List.filter_sublist datasetIds⟩
  · intro d hd
    rw [List.mem_filter] at hd ⊢
    intro hcon
    rw [hd.2] at hcon
    simp at hcon
  · intro d
    by_cases hv : BigQueryDatasetService.validateDatasetAccess env projectId d credentials
      <;> simp [List.mem_filter, hv]

/-- Witness for C3 at the spec scenario: project `p1`, ids `a, b, c`,
where only `b` fails validation. -/
theorem validateMultipleDatasetAccess_partition_witness :
    BigQueryDatasetService.validateMultipleDatasetAccess bqSampleEnv "p1"
      ["a", "b", "c"] "e30=" = ⟨["a", "c"], ["b"]⟩ ∧
    "a" ∉ (BigQueryDatasetService.validateMultipleDatasetAccess bqSampleEnv "p1"
      ["a", "b", "c"] "e30=").inaccessible ∧
    ("b" ∈ ["a", "b", "c"] ↔
      "b" ∈ (BigQueryDatasetService.validateMultipleDatasetAccess bqSampleEnv "p1"
        ["a", "b", "c"] "e30=").accessible ∨
      "b" ∈ (BigQueryDatasetService.validateMultipleDatasetAccess bqSampleEnv "p1"
        ["a", "b", "c"] "e30=").inaccessible) := by
  refine ⟨by decide, ?_, ?_⟩
  · exact (validateMultipleDatasetAccess_partition bqSampleEnv "p1" "e30="
      ["a", "b", "c"]).1 "a" (by decide)
  · exact (validateMultipleDatasetAccess_partition bqSampleEnv "p1" "e30="
      ["a", "b", "c"]).2.1 "b"

/-- C4: `validateDatasetAccess` returns a boolean and reports every failure
of the underlying call as `false`: a credentials string whose base64
decoding does not parse yields `false`, and a thrown metadata call yields
`false`. -/
theorem validateDatasetAccess_neverThrows (env : BqEnv)
    (projectId datasetId credentials : String) :
    (BigQueryDatasetService.validateDatasetAccess env projectId datasetId credentials = true ∨
      BigQueryDatasetService.validateDatasetAccess env projectId datasetId credentials = false) ∧
    (jsonParse (b64decodeLenient credentials.toList) = none →
      BigQueryDatasetService.validateDatasetAccess env projectId datasetId credentials = false) ∧
    (∀ parsed e, jsonParse (b64decodeLenient credentials.toList) = some parsed →
      env.datasetGetMetadata projectId parsed datasetId = Except.error e →
      BigQueryDatasetService.validateDatasetAccess env projectId datasetId credentials = false) := by
  refine ⟨?_, ?_, ?_⟩
  · cases h : BigQueryDatasetService.validateDatasetAccess env projectId datasetId credentials
    · exact Or.inr rfl
    · exact Or.inl rfl
  · intro hparse
    simp only [BigQueryDatasetService.validateDatasetAccess, hparse]
  · intro parsed e hparse hmeta
    simp only [BigQueryDatasetService.validateDatasetAccess, hparse, hmeta]

/-- Witness for C4: unparseable credentials and a thrown metadata call both
come back as `false`. -/
theorem validateDatasetAccess_neverThrows_witness :
    BigQueryDatasetService.validateDatasetAccess bqSampleEnv "p1" "a" "%%%" = false ∧
    BigQueryDatasetService.validateDatasetAccess bqSampleEnv "p1" "b" "e30=" = false := by
  refine ⟨?_, ?_⟩
  · exact (validateDatasetAccess_neverThrows bqSampleEnv "p1" "a" "%%%").2.1 rfl
  · exact (validateDatasetAccess_neverThrows bqSampleEnv "p1" "b" "e30=").2.2
      (Json.obj []) ⟨ErrCode.missing, "no access"⟩ rfl rfl

/-- C10: `validateDatasetAccess` parses its credentials only as
base64-encoded JSON, with no plain-JSON fallback: credentials that are
valid plain JSON but whose lenient base64 decoding is not valid JSON give
`false` for every project and dataset, and `validateMultipleDatasetAccess`
then reports every input id as inaccessible. -/
theorem validateDatasetAccess_noPlainJsonFallback (env : BqEnv)
    (projectId datasetId credentials : String) (datasetIds : List String)
    (hplain : (jsonParse credentials.toList).isSome = true)
    (hb64 : jsonParse (b64decodeLenient credentials.toList) = none) :
    BigQueryDatasetService.validateDatasetAccess env projectId datasetId credentials = false ∧
    BigQueryDatasetService.validateMultipleDatasetAccess env projectId datasetIds credentials
      = ⟨[], datasetIds⟩ := by
  have hfalse : ∀ d, BigQueryDatasetService.validateDatasetAccess env projectId d
      credentials = false := by
    intro d
    simp only [BigQueryDatasetService.validateDatasetAccess, hb64]
  refine ⟨hfalse datasetId, ?_⟩
  have hacc := validateMultiple_accessible env projectId datasetIds credentials
  have hinacc := validateMultiple_inaccessible env projectId datasetIds credentials
  cases hpart : BigQueryDatasetService.validateMultipleDatasetAccess env projectId
    datasetIds credentials with
  | mk accessible inaccessible =>
    rw [hpart] at hacc hinacc
    simp only at hacc hinacc
    congr 1
    · rw [hacc]
      have heq : List.filter
          (fun d => BigQueryDatasetService.validateDatasetAccess env projectId d credentials)
          datasetIds = List.filter (fun _ => false) datasetIds :=
        List.filter_congr (fun d _ => hfalse d)
      rw [heq, List.filter_false]
    · rw [hinacc]
      have heq : List.filter
          (fun d => !BigQueryDatasetService.validateDatasetAccess env projectId d credentials)
          datasetIds = List.filter (fun _ => true) datasetIds :=
        List.filter_congr (fun d _ => by simp [hfalse d])
      rw [heq, List.filter_true]

/-- Witness for C10: `{"a":1}` is valid plain JSON, its lenient base64
decoding is the single byte `k`, and every dataset comes back
inaccessible. -/
theorem validateDatasetAccess_noPlainJsonFallback_witness :
    BigQueryDatasetService.validateDatasetAccess bqSampleEnv "p1" "a" "\x7b\"a\":1\x7d" = false ∧
    BigQueryDatasetService.validateMultipleDatasetAccess bqSampleEnv "p1" ["x", "y"] "\x7b\"a\":1\x7d"
      = ⟨[], ["x", "y"]⟩ :=
  validateDatasetAccess_noPlainJsonFallback bqSampleEnv "p1" "a" "\x7b\"a\":1\x7d" ["x", "y"] rfl rfl

/-! ## Claims about dataset discovery -/

/-- C1: the error mapping of `discoverDatasets`: undecodable credentials
give `INVALID_CREDENTIALS` without manual input; a thrown enumeration
error maps 403/PERMISSION_DENIED to `INSUFFICIENT_PERMISSIONS` (manual
input), 401/UNAUTHENTICATED to `AUTHENTICATION_FAILED`, 404/NOT_FOUND to
`PROJECT_NOT_FOUND`, and anything else to `DISCOVERY_FAILED` (manual
input). -/
theorem discoverDatasets_errorMapping (env : BqEnv) (projectId credentials : String) :
    (BigQueryDatasetService.decodeCredentials credentials = none →
      BigQueryDatasetService.discoverDatasets env projectId credentials =
        ⟨false, none, some ⟨"INVALID_CREDENTIALS",
          "Invalid credentials format. Please check your service account key format.",
          false⟩⟩) ∧
    (∀ parsed e, BigQueryDatasetService.decodeCredentials credentials = some parsed →
      env.getDatasets projectId parsed = Except.error e →
      ((e.code = ErrCode.num 403 ∨ e.code = ErrCode.str "PERMISSION_DENIED") →
        (BigQueryDatasetService.discoverDatasets env projectId credentials).error.map
          DiscoveryError.code = some "INSUFFICIENT_PERMISSIONS" ∧
        (BigQueryDatasetService.discoverDatasets env projectId credentials).error.map
          DiscoveryError.requiresManualInput = some true) ∧
      ((e.code = ErrCode.num 401 ∨ e.code = ErrCode.str "UNAUTHENTICATED") →
        (BigQueryDatasetService.discoverDatasets env projectId credentials).error.map
          DiscoveryError.code = some "AUTHENTICATION_FAILED" ∧
        (BigQueryDatasetService.discoverDatasets env projectId credentials).error.map
          DiscoveryError.requiresManualInput = some false) ∧
      ((e.code = ErrCode.num 404 ∨ e.code = ErrCode.str "NOT_FOUND") →
        (BigQueryDatasetService.discoverDatasets env projectId credentials).error.map
          DiscoveryError.code = some "PROJECT_NOT_FOUND" ∧
        (BigQueryDatasetService.discoverDatasets env projectId credentials).error.map
          DiscoveryError.requiresManualInput = some false) ∧
      (¬(e.code = ErrCode.num 403 ∨ e.code = ErrCode.str "PERMISSION_DENIED") →
        ¬(e.code = ErrCode.num 401 ∨ e.code = ErrCode.str "UNAUTHENTICATED") →
        ¬(e.code = ErrCode.num 404 ∨ e.code = ErrCode.str "NOT_FOUND") →
        (BigQueryDatasetService.discoverDatasets env projectId credentials).error.map
          DiscoveryError.code = some "DISCOVERY_FAILED" ∧
        (BigQueryDatasetService.discoverDatasets env projectId credentials).error.map
          DiscoveryError.requiresManualInput = some true)) := by
  refine ⟨?_, ?_⟩
  · intro hdec
    simp only [BigQueryDatasetService.discoverDatasets, hdec]
  · intro parsed e hdec hgd
    refine ⟨?_, ?_, ?_, ?_⟩
    · intro hc
      simp only [BigQueryDatasetService.discoverDatasets, hdec, hgd, if_pos hc]
      exact ⟨rfl, rfl⟩
    · intro hc
      have hn1 : ¬(e.code = ErrCode.num 403 ∨ e.code = ErrCode.str "PERMISSION_DENIED") := by
        rcases hc with h | h <;> rw [h] <;> decide
      simp only [BigQueryDatasetService.discoverDatasets, hdec, hgd, if_neg hn1, if_pos hc]
      exact ⟨rfl, rfl⟩
    · intro hc
      have hn1 : ¬(e.code = ErrCode.num 403 ∨ e.code = ErrCode.str "PERMISSION_DENIED") := by
        rcases hc with h | h <;> rw [h] <;> decide
      have hn2 : ¬(e.code = ErrCode.num 401 ∨ e.code = ErrCode.str "UNAUTHENTICATED") := by
        rcases hc with h | h <;> rw [h] <;> decide
      simp only [BigQueryDatasetService.discoverDatasets, hdec, hgd, if_neg hn1, if_neg hn2,
        if_pos hc]
      exact ⟨rfl, rfl⟩
    · intro hn1 hn2 hn3
      simp only [BigQueryDatasetService.discoverDatasets, hdec, hgd, if_neg hn1, if_neg hn2,
        if_neg hn3]
      exact ⟨rfl, rfl⟩

/-- Witness for C1: each of the five error-mapping rows, at concrete
environments and a concrete credentials string (`bm90IGpzb24=` is
base64 of `not json`). -/
theorem discoverDatasets_errorMapping_witness :
    BigQueryDatasetService.discoverDatasets (bqErrEnv (ErrCode.num 403)) "p1" "bm90IGpzb24="
      = ⟨false, none, some ⟨"INVALID_CREDENTIALS",
          "Invalid credentials format. Please check your service account key format.",
          false⟩⟩ ∧
    (BigQueryDatasetService.discoverDatasets (bqErrEnv (ErrCode.num 403)) "p1" "e30=").error.map
      DiscoveryError.code = some "INSUFFICIENT_PERMISSIONS" ∧
    (BigQueryDatasetService.discoverDatasets (bqErrEnv (ErrCode.str "UNAUTHENTICATED")) "p1"
      "e30=").error.map DiscoveryError.code = some "AUTHENTICATION_FAILED" ∧
    (BigQueryDatasetService.discoverDatasets (bqErrEnv (ErrCode.num 404)) "p1"
      "e30=").error.map DiscoveryError.code = some "PROJECT_NOT_FOUND" ∧
    (BigQueryDatasetService.discoverDatasets (bqErrEnv ErrCode.missing) "p1"
      "e30=").error.map DiscoveryError.requiresManualInput = some true := by
  refine ⟨?_, ?_, ?_, ?_, ?_⟩
  · exact (discoverDatasets_errorMapping (bqErrEnv (ErrCode.num 403)) "p1" "bm90IGpzb24=").1 rfl
  · exact (((discoverDatasets_errorMapping (bqErrEnv (ErrCode.num 403)) "p1" "e30=").2
      (Json.obj []) ⟨ErrCode.num 403, "msg"⟩ rfl rfl).1 (Or.inl rfl)).1
  · exact ((((discoverDatasets_errorMapping (bqErrEnv (ErrCode.str "UNAUTHENTICATED")) "p1"
      "e30=").2 (Json.obj []) ⟨ErrCode.str "UNAUTHENTICATED", "msg"⟩ rfl rfl).2).1
      (Or.inr rfl)).1
  · exact ((((discoverDatasets_errorMapping (bqErrEnv (ErrCode.num 404)) "p1" "e30=").2
      (Json.obj []) ⟨ErrCode.num 404, "msg"⟩ rfl rfl).2.2).1 (Or.inl rfl)).1
  · exact ((((discoverDatasets_errorMapping (bqErrEnv ErrCode.missing) "p1" "e30=").2
      (Json.obj []) ⟨ErrCode.missing, "msg"⟩ rfl rfl).2.2).2 (by decide) (by decide)
      (by decide)).2

/-- C7: when enumeration succeeds, discovery succeeds with no error, and a
dataset whose own metadata fetch throws is still present, with only its id
populated. -/
theorem discoverDatasets_partialMetadata (env : BqEnv) (projectId credentials : String)
    (parsed : Json) (ds : List BqDataset)
    (hdec : BigQueryDatasetService.decodeCredentials credentials = some parsed)
    (hgd : env.getDatasets projectId parsed = Except.ok ds) :
    (BigQueryDatasetService.discoverDatasets env projectId credentials).success = true ∧
    (BigQueryDatasetService.discoverDatasets env projectId credentials).error = none ∧
    ∃ infos, (BigQueryDatasetService.discoverDatasets env projectId credentials).datasets
        = some infos ∧
      ∀ d ∈ ds, ∀ e, d.getMetadata = Except.error e →
        (⟨d.id, none, none, none, none, none⟩ : DatasetInfo) ∈ infos := by
  refine ⟨?_, ?_, ds.map BigQueryDatasetService.datasetInfoOf, ?_, ?_⟩
  · simp only [BigQueryDatasetService.discoverDatasets, hdec, hgd]
  · simp only [BigQueryDatasetService.discoverDatasets, hdec, hgd]
  · simp only [BigQueryDatasetService.discoverDatasets, hdec, hgd]
  · intro d hd e he
    have : BigQueryDatasetService.datasetInfoOf d
        = ⟨d.id, none, none, none, none, none⟩ := by
      simp only [BigQueryDatasetService.datasetInfoOf, he]
    rw [← this]
    exact List.mem_map_of_mem _ hd

/-- Witness for C7: enumeration returns one dataset with metadata and one
whose metadata fetch throws; discovery still succeeds and `ds2` appears
with only its id. -/
theorem discoverDatasets_partialMetadata_witness :
    (BigQueryDatasetService.discoverDatasets bqMetaEnv "p1" "e30=").success = true ∧
    ∃ infos, (BigQueryDatasetService.discoverDatasets bqMetaEnv "p1" "e30=").datasets
        = some infos ∧
      (⟨"ds2", none, none, none, none, none⟩ : DatasetInfo) ∈ infos := by
  obtain ⟨hsuc, -, infos, heq, hmem⟩ :=
    discoverDatasets_partialMetadata bqMetaEnv "p1" "e30=" (Json.obj []) [dsGood, dsBad]
      rfl rfl
  exact ⟨hsuc, infos, heq,
    hmem dsBad (List.mem_cons_of_mem dsGood (List.mem_cons_self dsBad []))
      ⟨ErrCode.missing, "meta-fail"⟩ rfl⟩

/-- Every discovery result is either a success record carrying a dataset
list and no error, or a failure record carrying an error and no datasets. -/
lemma discoverDatasets_cases (env : BqEnv) (projectId credentials : String) :
    ((BigQueryDatasetService.discoverDatasets env projectId credentials).success = true ∧
      (BigQueryDatasetService.discoverDatasets env projectId credentials).datasets.isSome
        = true ∧
      (BigQueryDatasetService.discoverDatasets env projectId credentials).error = none) ∨
    ((BigQueryDatasetService.discoverDatasets env projectId credentials).success = false ∧
      (BigQueryDatasetService.discoverDatasets env projectId credentials).datasets = none ∧
      (BigQueryDatasetService.discoverDatasets env projectId credentials).error.isSome
        = true) := by
  cases hdec : BigQueryDatasetService.decodeCredentials credentials with
  | none =>
    right
    simp [BigQueryDatasetService.discoverDatasets, hdec]
  | some parsed =>
    cases hgd : env.getDatasets projectId parsed with
    | ok ds =>
      left
      simp [BigQueryDatasetService.discoverDatasets, hdec, hgd]
    | error e =>
      right
      simp only [BigQueryDatasetService.discoverDatasets, hdec, hgd]
      split_ifs <;> simp

/-- C8: every discovery result populates exactly one branch: success comes
with a datasets list and no error, failure with an error and no datasets;
and a project with zero datasets yields success with the empty list. -/
theorem discoverDatasets_exclusiveBranches (env : BqEnv) (projectId credentials : String) :
    ((BigQueryDatasetService.discoverDatasets env projectId credentials).success = true →
      (∃ l, (BigQueryDatasetService.discoverDatasets env projectId credentials).datasets
          = some l) ∧
      (BigQueryDatasetService.discoverDatasets env projectId credentials).error = none) ∧
    ((BigQueryDatasetService.discoverDatasets env projectId credentials).success = false →
      (∃ e, (BigQueryDatasetService.discoverDatasets env projectId credentials).error
          = some e) ∧
      (BigQueryDatasetService.discoverDatasets env projectId credentials).datasets = none) ∧
    (∀ parsed, BigQueryDatasetService.decodeCredentials credentials = some parsed →
      env.getDatasets projectId parsed = Except.ok [] →
      BigQueryDatasetService.discoverDatasets env projectId credentials
        = ⟨true, some [], none⟩) := by
  have hc := discoverDatasets_cases env projectId credentials
  refine ⟨?_, ?_, ?_⟩
  · intro hsuc
    rcases hc with ⟨h1, h2, h3⟩ | ⟨h1, h2, h3⟩
    · exact ⟨Option.isSome_iff_exists.mp h2, h3⟩
    · rw [hsuc] at h1
      simp at h1
  · intro hfail
    rcases hc with ⟨h1, h2, h3⟩ | ⟨h1, h2, h3⟩
    · rw [hfail] at h1
      simp at h1
    · exact ⟨Option.isSome_iff_exists.mp h3, h2⟩
  · intro parsed hdec hgd
    simp only [BigQueryDatasetService.discoverDatasets, hdec, hgd, List.map_nil]

/-- Witness for C8: a project with zero datasets discovers successfully
with an empty list, and the success branch carries no error. -/
theorem discoverDatasets_exclusiveBranches_witness :
    BigQueryDatasetService.discoverDatasets bqSampleEnv "p1" "e30="
      = ⟨true, some [], none⟩ ∧
    (∃ l, (BigQueryDatasetService.discoverDatasets bqSampleEnv "p1" "e30=").datasets
        = some l) ∧
    (BigQueryDatasetService.discoverDatasets bqSampleEnv "p1" "e30=").error = none := by
  have h := discoverDatasets_exclusiveBranches bqSampleEnv "p1" "e30="
  have hzero := h.2.2 (Json.obj []) rfl rfl
  refine ⟨hzero, ?_⟩
  exact h.1 (by rw [hzero])

/-! ## Claims about the multi-dataset table aggregator -/

/-- C5: for a BigQuery project, aggregation always succeeds: a dataset whose
fetch throws contributes the empty list, tables of every successfully
fetched dataset are still in the result, and when every fetch throws the
result is the empty list rather than an error. -/
theorem listTablesFromDatasets_partialFailure (env : MetaEnv) (project : Project)
    (datasetIds : List String) (hbq : project.type = DataSourceName.BIG_QUERY) :
    ∃ tables, DataSourceMetadataService.listTablesFromDatasets env project datasetIds
        = Except.ok tables ∧
      ((∀ d ∈ datasetIds, ∃ e, env.ibisGetTables project.type
          { project.connectionInfo with datasetId := some d } none = Except.error e) →
        tables = []) ∧
      (∀ d ∈ datasetIds, ∀ ts, env.ibisGetTables project.type
          { project.connectionInfo with datasetId := some d } none = Except.ok ts →
        ∀ t ∈ ts, tagTable t d ∈ tables) := by
  have hne : ¬ project.type ≠ DataSourceName.BIG_QUERY := by simp [hbq]
  refine ⟨(datasetIds.map (DataSourceMetadataService.perDatasetTables env project)).flatten,
    ?_, ?_, ?_⟩
  · simp only [DataSourceMetadataService.listTablesFromDatasets]
    rw [if_neg hne]
  · intro hall
    rw [List.flatten_eq_nil_iff]
    intro l hl
    rw [List.mem_map] at hl
    obtain ⟨d, hd, rfl⟩ := hl
    obtain ⟨e, he⟩ := hall d hd
    simp only [DataSourceMetadataService.perDatasetTables, he]
  · intro d hd ts hok t ht
    rw [List.mem_flatten]
    refine ⟨DataSourceMetadataService.perDatasetTables env project d,
      List.mem_map_of_mem _ hd, ?_⟩
    simp only [DataSourceMetadataService.perDatasetTables, hok]
    exact List.mem_map_of_mem _ ht

/-- Witness for C5 at the spec scenario: datasets `d1, d2` where only `d2`
throws keep `d1`'s tagged table, and an environment where every fetch
throws yields the empty list. -/
theorem listTablesFromDatasets_partialFailure_witness :
    (∃ tables, DataSourceMetadataService.listTablesFromDatasets metaBqEnv bqProject
        ["d1", "d2"] = Except.ok tables ∧ tagTable tableT1 "d1" ∈ tables) ∧
    DataSourceMetadataService.listTablesFromDatasets metaBqFailEnv bqProject
      ["d1", "d2"] = Except.ok [] := by
  constructor
  · obtain ⟨tables, heq, -, hmem⟩ :=
      listTablesFromDatasets_partialFailure metaBqEnv bqProject ["d1", "d2"] rfl
    exact ⟨tables, heq, hmem "d1" (by decide) [tableT1] rfl tableT1 (by decide)⟩
  · obtain ⟨tables, heq, hemp, -⟩ :=
      listTablesFromDatasets_partialFailure metaBqFailEnv bqProject ["d1", "d2"] rfl
    have htab : tables = [] := hemp (fun d _ => ⟨⟨ErrCode.missing, "boom"⟩, rfl⟩)
    rw [heq, htab]

/-- C6: for a BigQuery project, every table of the aggregation carries a
`properties.dataset` tag equal to the id of the dataset whose fetch
produced it, and nothing is deduplicated: the result length is the sum of
the per-dataset fetch lengths. -/
theorem listTablesFromDatasets_provenance (env : MetaEnv) (project : Project)
    (datasetIds : List String) (hbq : project.type = DataSourceName.BIG_QUERY) :
    ∃ tables, DataSourceMetadataService.listTablesFromDatasets env project datasetIds
        = Except.ok tables ∧
      (∀ t ∈ tables, ∃ d ∈ datasetIds, getProp t.properties "dataset" = some d ∧
        ∃ ts t0, env.ibisGetTables project.type
            { project.connectionInfo with datasetId := some d } none = Except.ok ts ∧
          t0 ∈ ts ∧ t = tagTable t0 d) ∧
      tables.length = (datasetIds.map (fun d =>
        match env.ibisGetTables project.type
            { project.connectionInfo with datasetId := some d } none with
        | Except.ok ts => ts.length
        | Except.error _ => 0)).sum := by
  have hne : ¬ project.type ≠ DataSourceName.BIG_QUERY := by simp [hbq]
  refine ⟨(datasetIds.map (DataSourceMetadataService.perDatasetTables env project)).flatten,
    ?_, ?_, ?_⟩
  · simp only [DataSourceMetadataService.listTablesFromDatasets]
    rw [if_neg hne]
  · intro t ht
    rw [List.mem_flatten] at ht
    obtain ⟨l, hl, htl⟩ := ht
    rw [List.mem_map] at hl
    obtain ⟨d, hd, rfl⟩ := hl
    unfold DataSourceMetadataService.perDatasetTables at htl
    cases hge : env.ibisGetTables project.type
        { project.connectionInfo with datasetId := some d } none with
    | ok ts =>
      rw [hge] at htl
      simp only at htl
      rw [List.mem_map] at htl
      obtain ⟨t0, ht0, rfl⟩ := htl
      exact ⟨d, hd, getProp_tagTable t0 d, ts, t0, hge, ht0, rfl⟩
    | error e =>
      rw [hge] at htl
      simp at htl
  · rw [List.length_flatten, List.map_map]
    congr 1
    refine List.map_congr_left ?_
    intro d _
    simp only [Function.comp]
    unfold DataSourceMetadataService.perDatasetTables
    cases hge : env.ibisGetTables project.type
        { project.connectionInfo with datasetId := some d } none with
    | ok ts => simp
    | error e => simp

/-- Witness for C6: datasets `d1, d3` both serve a table named `t1`; both
copies are kept, each with its own dataset tag. -/
theorem listTablesFromDatasets_provenance_witness :
    ∃ tables, DataSourceMetadataService.listTablesFromDatasets metaBqEnv bqProject
        ["d1", "d3"] = Except.ok tables ∧
      tables.length = 2 ∧
      ∀ t ∈ tables, ∃ d ∈ ["d1", "d3"], getProp t.properties "dataset" = some d := by
  obtain ⟨tables, heq, hprov, hlen⟩ :=
    listTablesFromDatasets_provenance metaBqEnv bqProject ["d1", "d3"] rfl
  refine ⟨tables, heq, ?_, ?_⟩
  · rw [hlen]
    rfl
  · intro t ht
    obtain ⟨d, hd, hp, -⟩ := hprov t ht
    exact ⟨d, hd, hp⟩

/-- C9: for a non-BigQuery project, `validateDatasetAccess` returns the
identity partition whatever the collaborators do, and
`listTablesFromDatasets` ignores the dataset ids and falls back to the
single ungrouped `listTables` call. -/
theorem nonBigQuery_identityPartition (env : MetaEnv) (bq : BqEnv) (project : Project)
    (datasetIds : List String) (hnbq : project.type ≠ DataSourceName.BIG_QUERY) :
    DataSourceMetadataService.validateDatasetAccess env bq project datasetIds
      = Except.ok ⟨datasetIds, []⟩ ∧
    DataSourceMetadataService.listTablesFromDatasets env project datasetIds
      = DataSourceMetadataService.listTables env project none := by
  constructor
  · simp only [DataSourceMetadataService.validateDatasetAccess]
    rw [if_pos hnbq]
  · simp only [DataSourceMetadataService.listTablesFromDatasets]
    rw [if_pos hnbq]

/-- Witness for C9: a Postgres project with two dataset ids. -/
theorem nonBigQuery_identityPartition_witness :
    DataSourceMetadataService.validateDatasetAccess metaBqEnv bqSampleEnv pgProject
      ["a", "b"] = Except.ok ⟨["a", "b"], []⟩ ∧
    DataSourceMetadataService.listTablesFromDatasets metaBqEnv pgProject ["a", "b"]
      = DataSourceMetadataService.listTables metaBqEnv pgProject none :=
  nonBigQuery_identityPartition metaBqEnv bqSampleEnv pgProject ["a", "b"] (by decide)

/-! ## Claims about the credential decoder -/

/-- Counterexample to C2 as stated: `"IjEi"` (a six-character plain-JSON
string literal) is valid JSON, but the decoder parses it through the
base64 path — the lenient decode skips the two quotes and turns `IjEi`
into the three bytes `"1"` — so the raw text and its base64 encoding
decode to different parsed objects. -/
theorem decodeCredentials_roundtrip_counterexample :
    jsonParse "\"IjEi\"".toList = some (Json.str "IjEi") ∧
    BigQueryDatasetService.decodeCredentials (b64EncodeString "\"IjEi\"")
      = some (Json.str "IjEi") ∧
    BigQueryDatasetService.decodeCredentials "\"IjEi\"" = some (Json.str "1") ∧
    BigQueryDatasetService.decodeCredentials (b64EncodeString "\"IjEi\"")
      ≠ BigQueryDatasetService.decodeCredentials "\"IjEi\"" := by
  refine ⟨rfl, rfl, rfl, ?_⟩
  intro h
  have h1 : BigQueryDatasetService.decodeCredentials (b64EncodeString "\"IjEi\"")
      = some (Json.str "IjEi") := rfl
  have h2 : BigQueryDatasetService.decodeCredentials "\"IjEi\"" = some (Json.str "1") := rfl
  rw [h1, h2] at h
  injection h with h3
  injection h3 with h4
  exact absurd h4 (by decide)

/-- C2 as amended: for ASCII valid-JSON text `j`, the decoder applied to
the base64 encoding of `j` yields exactly the parse of `j`; applied to
`j` itself it yields the parse of `j` provided the lenient base64
decoding of `j` is not itself valid JSON (the counterexample shows the
two decodes can otherwise disagree). -/
theorem decodeCredentials_roundtrip_amended (j : String) (v : Json)
    (hascii : ∀ c ∈ j.toList, c.toNat < 128)
    (hparse : jsonParse j.toList = some v) :
    BigQueryDatasetService.decodeCredentials (b64EncodeString j) = some v ∧
    (jsonParse (b64decodeLenient j.toList) = none →
      BigQueryDatasetService.decodeCredentials j = some v) := by
  have hdec : b64decodeLenient (b64EncodeString j).toList = j.toList := by
    have hlist : (b64EncodeString j).toList = b64EncodeBytes (j.toList.map Char.toNat) := rfl
    rw [hlist]
    exact b64decodeLenient_encode j.toList
      (fun c hc => lt_trans (hascii c hc) (by norm_num))
  constructor
  · simp only [BigQueryDatasetService.decodeCredentials, hdec, hparse]
  · intro hb64
    simp only [BigQueryDatasetService.decodeCredentials, hb64, hparse]

/-- Witness for the amended C2: a service-account-shaped object and the
empty object, in both encodings. -/
theorem decodeCredentials_roundtrip_amended_witness :
    BigQueryDatasetService.decodeCredentials (b64EncodeString "\x7b\"a\":1\x7d")
      = some (Json.obj [("a", Json.num "1")]) ∧
    BigQueryDatasetService.decodeCredentials "\x7b\x7d" = some (Json.obj []) := by
  constructor
  · exact (decodeCredentials_roundtrip_amended "\x7b\"a\":1\x7d"
      (Json.obj [("a", Json.num "1")]) (by decide) rfl).1
  · exact (decodeCredentials_roundtrip_amended "\x7b\x7d" (Json.obj []) (by decide) rfl).2 rfl
